import Mathlib

/-!
# Availability & booking allocation engine of `sps-arsys`

A shallow embedding of the public-booking router of the `sps-arsys`
backend (`src/backend/app/routers/public.py`) together with the data
model it reads (`src/backend/app/models.py`) and the request schema
(`src/backend/app/schemas.py`).  The embedding keeps the source's
names, its check order, and its Python truthiness semantics
(`x or y`, `if x:` on optional integers and prices), and represents
the relational store as explicit lists of rows threaded through the
operations.  SQL `Numeric(10,2)` prices become `ℤ` (the booking flow
only selects prices and adds the zero equipment cost, so no division
ever occurs), SQL `Integer` counters
become `ℤ`, dates and times become day/minute ordinals in `ℕ`.
-/

namespace SpsArsys

/-- `AppointmentStatus` enumeration from `models.py`. -/
inductive AppointmentStatus where
  | pending | confirmed | cancelled | completed | noShow
deriving DecidableEq, Repr

/-- `PackageStatus` enumeration from `models.py`. -/
inductive PackageStatus where
  | active | inactive | draft
deriving DecidableEq, Repr

/-- `PhotoSessionType` enumeration from `models.py`. -/
inductive PhotoSessionType where
  | portrait | family | professional | creative | product | event
deriving DecidableEq, Repr

/-- `Studio` row — the fields the public booking flow reads. -/
structure Studio where
  id : Nat
  slug : String
  is_active : Bool
deriving DecidableEq, Repr

/-- `Package` row — the fields the booking flow reads (`models.py`). -/
structure Package where
  id : Nat
  studio_id : Nat
  session_type : PhotoSessionType
  duration_minutes : Int
  min_duration_minutes : Option Int
  max_duration_minutes : Option Int
  allow_custom_duration : Bool
  base_price : Int
  status : PackageStatus
  is_public : Bool
  requires_approval : Bool
deriving DecidableEq, Repr

/-- `TimeSlot` row (`models.py`): a bookable window with a capacity
counter and an optional per-slot price override. -/
structure TimeSlot where
  id : Nat
  studio_id : Nat
  package_id : Option Nat
  date : Nat
  start_time : Nat
  end_time : Nat
  max_capacity : Int
  current_bookings : Int
  is_available : Bool
  override_price : Option Int
deriving DecidableEq, Repr

/-- `User` row — the fields the public booking flow reads. -/
structure User where
  id : Nat
  email : String
  first_name : String
  last_name : String
  phone : Option String
deriving DecidableEq, Repr

/-- `Appointment` row — the fields the booking flow writes and reads. -/
structure Appointment where
  id : Nat
  studio_id : Nat
  customer_id : Nat
  time_slot_id : Nat
  package_id : Nat
  session_type : PhotoSessionType
  duration_minutes : Int
  base_price : Int
  equipment_cost : Int
  total_price : Int
  status : AppointmentStatus
  cancelled_at : Option Nat
  cancellation_reason : Option String
deriving DecidableEq, Repr

/-- The relational store the public router operates on. -/
structure DB where
  studios : List Studio
  packages : List Package
  slots : List TimeSlot
  users : List User
  appointments : List Appointment
deriving DecidableEq, Repr

-- `Except` results compared for equality in concrete witnesses.
deriving instance DecidableEq for Except

/-- The error taxonomy of the spec, mapped from the router's
`HTTPException`s: 404 lookups are `notFound`; the 400 on a full or
unavailable slot is `unavailable`; the 400 on a slot/package mismatch is
`conflict`; the 400s on duration constraints are `invalidRequest`; 403 is
`forbidden`; the 400s on an already cancelled/completed appointment are
`invalidState`. -/
inductive BookingError where
  | notFound | unavailable | conflict | invalidRequest | forbidden | invalidState
deriving DecidableEq, Repr

/-- `PublicAppointmentCreate` (`schemas.py`): `duration_minutes` is an
unconstrained `Optional[int]` — no lower bound, so `some 0` and negative
values are admissible requests. -/
structure BookingRequest where
  customer_email : String
  customer_first_name : String
  customer_last_name : String
  customer_phone : Option String
  package_id : Nat
  time_slot_id : Nat
  duration_minutes : Option Int
deriving DecidableEq, Repr

/-! ## Python truthiness

The router uses `x or y` and `if x:` on `Optional[int]` and
`Optional[Decimal]` values; `None` and `0` are falsy. -/

/-- Truthiness of an `Optional[int]`: `None` and `0` are falsy. -/
def truthyInt : Option Int → Bool
  | none => false
  | some v => v != 0

/-- Python `a or b` on an `Optional[int]` against an `Int` default. -/
def pyOrInt : Option Int → Int → Int
  | none, d => d
  | some v, d => if v = 0 then d else v

/-- Python `a or b` on an `Optional[Decimal]` price against a default:
`None` and `0` both fall through to the default. -/
def pyOrPrice : Option Int → Int → Int
  | none, d => d
  | some v, d => if v = 0 then d else v

/-- Python's `str.lower()`, as the character-wise lowering of the
string's characters.  (Semantically `String.toLower`; spelled over the
character list so that concrete instances reduce in the kernel.) -/
def pyLower (s : String) : String := String.mk (s.data.map Char.toLower)

/-! ## Row lookup and first-match update

`Query.filter(...).first()` is `List.find?`; the ORM then mutates the
found row in place, which is `updateFirst` with the same predicate. -/

/-- Replace the first element satisfying `p` by its image under `f`;
every other element is untouched. -/
def updateFirst : List α → (α → Bool) → (α → α) → List α
  | [], _, _ => []
  | a :: l, p, f => if p a then f a :: l else a :: updateFirst l p f

/-! ## Predicates of the booking router -/

/-- The package filter of `create_public_booking` (public.py:235-241):
id equality, `status = ACTIVE`, `is_public = true`. -/
def packageBookable (pid : Nat) (p : Package) : Bool :=
  p.id == pid && p.status == PackageStatus.active && p.is_public

/-- The slot availability read of `create_public_booking`
(public.py:250-258): id and studio equality, `is_available`,
`current_bookings < max_capacity`, `date ≥ today`. -/
def slotBookable (tid : Nat) (stid : Nat) (today : Nat) (s : TimeSlot) : Bool :=
  s.id == tid && s.studio_id == stid && s.is_available &&
    decide (s.current_bookings < s.max_capacity) && decide (today ≤ s.date)

/-- The slot/package compatibility check (public.py:267): a set
`slot.package_id` must equal the requested package. -/
def slotPackageMismatch (s : TimeSlot) (pid : Nat) : Bool :=
  match s.package_id with
  | some spid => spid != pid
  | none => false

/-- Modelled from the spec: `get_or_create_customer` is imported by the
booking router from `app.services.auth` but is absent from the source
tree; the spec says "Resolve or create the customer record (delegated to
an external identity collaborator — idempotent on email)".  Modelled as:
return the first user whose email matches case-insensitively, else
insert a fresh customer row built from the request's contact fields. -/
def get_or_create_customer (db : DB) (email first last : String)
    (phone : Option String) (fresh_user_id : Nat) : DB × User :=
  match db.users.find? (fun u => pyLower u.email == pyLower email) with
  | some u => (db, u)
  | none =>
      let u : User :=
        { id := fresh_user_id, email := email, first_name := first,
          last_name := last, phone := phone }
      ({ db with users := db.users ++ [u] }, u)

/-- The duration resolution and validation of `create_public_booking`
(public.py:282-303), with Python truthiness: a requested `0` falls back
to the package duration and skips every custom-duration check, and a
bound set to `0` is skipped. -/
def validate_duration (requested : Option Int) (package : Package) :
    Except BookingError Int :=
  let duration := pyOrInt requested package.duration_minutes
  if truthyInt requested && !package.allow_custom_duration then
    .error .invalidRequest
  else if truthyInt requested && truthyInt package.min_duration_minutes &&
      decide (duration < (package.min_duration_minutes.getD 0)) then
    .error .invalidRequest
  else if truthyInt requested && truthyInt package.max_duration_minutes &&
      decide ((package.max_duration_minutes.getD 0) < duration) then
    .error .invalidRequest
  else
    .ok duration

/-- `create_public_booking` (public.py:219-365).  Returns the post-state
and the outcome.  The fresh row ids stand for the generated UUIDs.  The
check order is the source's: package lookup (404), slot availability
read (400 unavailable), slot/package compatibility (400 conflict),
customer resolution, duration validation (400 invalid request), then
pricing, appointment construction, the slot-counter increment and the
commit.  Note the customer resolution happens before the duration
checks, and the capacity read and the increment are separate steps of
one request. -/
def create_public_booking (db : DB) (today : Nat) (req : BookingRequest)
    (fresh_user_id fresh_appt_id : Nat) :
    DB × Except BookingError Appointment :=
  match db.packages.find? (packageBookable req.package_id) with
  | none => (db, .error .notFound)
  | some package =>
    match db.slots.find? (slotBookable req.time_slot_id package.studio_id today) with
    | none => (db, .error .unavailable)
    | some slot =>
      if slotPackageMismatch slot req.package_id then (db, .error .conflict)
      else
        let dbc := get_or_create_customer db req.customer_email
          req.customer_first_name req.customer_last_name
          req.customer_phone fresh_user_id
        match validate_duration req.duration_minutes package with
        | .error e => (dbc.1, .error e)
        | .ok duration =>
          let base_price := pyOrPrice slot.override_price package.base_price
          let equipment_cost : Int := 0
          let total_price := base_price + equipment_cost
          let appointment : Appointment :=
            { id := fresh_appt_id
              studio_id := package.studio_id
              customer_id := dbc.2.id
              time_slot_id := slot.id
              package_id := package.id
              session_type := package.session_type
              duration_minutes := duration
              base_price := base_price
              equipment_cost := equipment_cost
              total_price := total_price
              status := if package.requires_approval then .pending else .confirmed
              cancelled_at := none
              cancellation_reason := none }
          ({ dbc.1 with
              slots := updateFirst dbc.1.slots
                (slotBookable req.time_slot_id package.studio_id today)
                (fun s => { s with current_bookings := s.current_bookings + 1 })
              appointments := dbc.1.appointments ++ [appointment] },
            .ok appointment)

/-- `cancel_public_booking` (public.py:406-468).  Returns the post-state
and the outcome.  Lookup by id (404), case-insensitive email check
(403), rejection of `cancelled` then `completed` (400), then the status
write and the floored decrement of the associated slot's counter. -/
def cancel_public_booking (db : DB) (now : Nat) (booking_id : Nat)
    (customer_email : String) (cancellation_reason : Option String) :
    DB × Except BookingError Unit :=
  match db.appointments.find? (fun a => a.id == booking_id) with
  | none => (db, .error .notFound)
  | some appointment =>
    match db.users.find? (fun u => u.id == appointment.customer_id) with
    | none => (db, .error .forbidden)
    | some customer =>
      if pyLower customer.email != pyLower customer_email then
        (db, .error .forbidden)
      else if appointment.status == AppointmentStatus.cancelled then
        (db, .error .invalidState)
      else if appointment.status == AppointmentStatus.completed then
        (db, .error .invalidState)
      else
        ({ db with
            appointments := updateFirst db.appointments
              (fun a => a.id == booking_id)
              (fun a => { a with
                status := .cancelled
                cancelled_at := some now
                cancellation_reason := cancellation_reason })
            slots := updateFirst db.slots
              (fun s => s.id == appointment.time_slot_id)
              (fun s => { s with
                current_bookings := max 0 (s.current_bookings - 1) }) },
          .ok ())

/-! ## Availability query (`get_available_time_slots`, public.py:117-216) -/

/-- An element of the availability response (`AvailableTimeSlot` schema). -/
structure AvailableTimeSlot where
  id : Nat
  date : Nat
  start_time : Nat
  end_time : Nat
  available_capacity : Int
  price : Int
deriving DecidableEq, Repr

/-- The studio filter of the availability query (public.py:135-140). -/
def studioActive (sid : Nat) (st : Studio) : Bool :=
  st.id == sid && st.is_active

/-- The package filter of the availability query (public.py:169-176):
id, studio, `ACTIVE`, `is_public`. -/
def packagePublic (pid : Nat) (sid : Nat) (p : Package) : Bool :=
  p.id == pid && p.studio_id == sid && p.status == PackageStatus.active && p.is_public

/-- The slot filter of the availability query (public.py:156-187):
studio, `is_available`, date range, spare capacity, and — when a
`package_id` filter is supplied — `package_id` null or equal. -/
def availSlotPred (sid : Nat) (package_id : Option Nat)
    (dfrom dto : Nat) (s : TimeSlot) : Bool :=
  s.studio_id == sid && s.is_available &&
    decide (dfrom ≤ s.date) && decide (s.date ≤ dto) &&
    decide (s.current_bookings < s.max_capacity) &&
    (match package_id with
     | some pid => s.package_id == some pid || s.package_id == none
     | none => true)

/-- The `ORDER BY date ASC, start_time ASC` of the availability query. -/
def slotLE (a b : TimeSlot) : Bool :=
  a.date < b.date || (a.date == b.date && a.start_time ≤ b.start_time)

/-- `slotLE` as a decidable relation, for sorting. -/
def slotOrder (a b : TimeSlot) : Prop := slotLE a b = true

instance : DecidableRel slotOrder := fun _ _ =>
  inferInstanceAs (Decidable (_ = true))

instance : IsTotal TimeSlot slotOrder := by
  refine ⟨fun a b => ?_⟩
  simp only [slotOrder, slotLE, Bool.or_eq_true, Bool.and_eq_true, beq_iff_eq,
    decide_eq_true_eq]
  omega

instance : IsTrans TimeSlot slotOrder := by
  refine ⟨fun a b c => ?_⟩
  simp only [slotOrder, slotLE, Bool.or_eq_true, Bool.and_eq_true, beq_iff_eq,
    decide_eq_true_eq]
  omega

/-- The `(date, start_time)` ordering on response rows, used to state
that the response is sorted. -/
def availLE (a b : AvailableTimeSlot) : Prop :=
  a.date < b.date ∨ (a.date = b.date ∧ a.start_time ≤ b.start_time)

/-- The per-slot price resolution of the availability query
(public.py:195-205): the slot's `override_price` when it is not `None`;
else, when a `package_id` filter was supplied, that package's
`base_price` (refetched by id); else `0`. -/
def availPrice (db : DB) (package_id : Option Nat) (s : TimeSlot) : Int :=
  match s.override_price with
  | some p => p
  | none =>
    match package_id with
    | some pid =>
      match db.packages.find? (fun p => p.id == pid) with
      | some p => p.base_price
      | none => 0
    | none => 0

/-- The price rule claim C7 asserts, stated from the claim's words:
the slot's `override_price` if it is set, else "the package's"
`base_price` — read as the price of the package the slot belongs to —
else zero, regardless of whether a `package_id` filter was supplied. -/
def claimedResolvedPrice (db : DB) (s : TimeSlot) : Int :=
  match s.override_price with
  | some p => p
  | none =>
    match s.package_id.bind (fun pid => db.packages.find? (fun p => p.id == pid)) with
    | some p => p.base_price
    | none => 0

/-- The amended price rule, in the spec's words with the filter
dependence made explicit: `override_price` if set; else, when a
`package_id` filter was supplied, that package's `base_price`; else
zero. -/
def specResolvedPrice (db : DB) (package_filter : Option Nat) (s : TimeSlot) : Int :=
  match s.override_price with
  | some p => p
  | none =>
    match package_filter with
    | some pid =>
      match db.packages.find? (fun p => p.id == pid) with
      | some p => p.base_price
      | none => 0
    | none => 0

/-- The response row built for one slot (public.py:207-214). -/
def mkAvailableSlot (db : DB) (package_id : Option Nat) (s : TimeSlot) :
    AvailableTimeSlot :=
  { id := s.id, date := s.date, start_time := s.start_time,
    end_time := s.end_time,
    available_capacity := s.max_capacity - s.current_bookings,
    price := availPrice db package_id s }

/-- `get_available_time_slots` (public.py:117-216): studio lookup (404),
date-range defaulting (`date_from` defaults to today, `date_to` to
`date_from + 30` days), the slot filter, the package filter lookup (404)
when a `package_id` is supplied, ordering by `(date, start_time)`, and
the priced response rows.  Read-only: the store is not returned because
it is never changed. -/
def get_available_time_slots (db : DB) (today : Nat) (studio_id : Nat)
    (package_id : Option Nat) (date_from date_to : Option Nat) :
    Except BookingError (List AvailableTimeSlot) :=
  match db.studios.find? (studioActive studio_id) with
  | none => .error .notFound
  | some _ =>
    let dfrom := date_from.getD today
    let dto := date_to.getD (dfrom + 30)
    let pkgOk : Bool :=
      match package_id with
      | none => true
      | some pid => (db.packages.find? (packagePublic pid studio_id)).isSome
    if pkgOk then
      let slots := (db.slots.filter (availSlotPred studio_id package_id dfrom dto)).insertionSort slotOrder
      .ok (slots.map (mkAvailableSlot db package_id))
    else
      .error .notFound

/-! ## Interleaved allocation attempts (§5 of the spec)

The slot read of `create_public_booking` (public.py:250-258) and the
increment-and-commit (public.py:328-333) are separate steps of one
request.  The model below runs several requests against one slot, each
request being the two steps `check` (the availability read, failing with
`Unavailable` when the slot is full) and `commit` (the increment); a
schedule interleaves the steps of the requests arbitrarily. -/

/-- Availability of a slot as read by `create_public_booking`, with the
id/studio equalities dropped (one fixed slot): `is_available`,
`current_bookings < max_capacity`, `date ≥ today`. -/
def slotHasCapacity (today : Nat) (s : TimeSlot) : Bool :=
  s.is_available && decide (s.current_bookings < s.max_capacity) &&
    decide (today ≤ s.date)

/-- Progress of one allocation request against the shared slot. -/
inductive TxnPhase where
  | ready      -- has not yet executed its availability read
  | passed     -- availability read succeeded; increment still pending
  | committed  -- increment executed: the booking succeeded
  | failed     -- availability read failed: `Unavailable`
deriving DecidableEq, Repr

/-- State of the interleaved execution: the shared slot row and the
phase of each request. -/
structure ConcState where
  slot : TimeSlot
  phases : List TxnPhase
deriving DecidableEq, Repr

/-- One scheduler step: run the next pending step of request `i`.
`ready → passed/failed` is the availability read of
public.py:250-258; `passed → committed` is the separate increment of
public.py:329.  A finished or out-of-range request leaves the state
unchanged. -/
def concStep (today : Nat) (st : ConcState) (i : Nat) : ConcState :=
  match st.phases.get? i with
  | some .ready =>
    if slotHasCapacity today st.slot then
      { st with phases := st.phases.set i .passed }
    else
      { st with phases := st.phases.set i .failed }
  | some .passed =>
    { slot := { st.slot with current_bookings := st.slot.current_bookings + 1 },
      phases := st.phases.set i .committed }
  | _ => st

/-- Run a whole schedule of interleaved steps. -/
def concRun (today : Nat) (st : ConcState) (sched : List Nat) : ConcState :=
  sched.foldl (concStep today) st

/-- Number of requests that succeeded. -/
def successCount (st : ConcState) : Nat :=
  st.phases.countP (· == TxnPhase.committed)

/-- Number of requests that failed with `Unavailable`. -/
def unavailableCount (st : ConcState) : Nat :=
  st.phases.countP (· == TxnPhase.failed)

/-! ## Sequential operation sequences (§8 of the spec) -/

/-- One sequential operation against the store: a public booking attempt
or a cancellation attempt, with the ambient date and the fresh row ids
it would use. -/
inductive Op where
  | alloc (today : Nat) (req : BookingRequest) (fresh_user_id fresh_appt_id : Nat)
  | cancel (now : Nat) (booking_id : Nat) (customer_email : String)
      (cancellation_reason : Option String)
deriving Repr

/-- Execute one operation, keeping the post-state whatever the outcome. -/
def runOp (db : DB) : Op → DB
  | .alloc today req uid aid => (create_public_booking db today req uid aid).1
  | .cancel now bid email reason => (cancel_public_booking db now bid email reason).1

/-- Execute a sequence of operations left to right. -/
def runOps (db : DB) (ops : List Op) : DB :=
  ops.foldl runOp db

/-- The capacity invariant of §3 of the spec, over every slot row. -/
def SlotInv (db : DB) : Prop :=
  ∀ s ∈ db.slots, 0 ≤ s.current_bookings ∧ s.current_bookings ≤ s.max_capacity

instance : DecidablePred SlotInv := fun db =>
  inferInstanceAs (Decidable (∀ s ∈ db.slots, _ ∧ _))

/-- The appointment row a successful allocation inserts
(public.py:311-326), as a function of the resolved duration: pricing
from the slot override (Python `or`) else the package base price,
equipment cost stubbed at zero, total = base + equipment, status
`confirmed` unless the package requires approval. -/
def bookedAppointment (db : DB) (req : BookingRequest) (uid aid : Nat)
    (package : Package) (slot : TimeSlot) (duration : Int) : Appointment :=
  { id := aid
    studio_id := package.studio_id
    customer_id := (get_or_create_customer db req.customer_email
      req.customer_first_name req.customer_last_name
      req.customer_phone uid).2.id
    time_slot_id := slot.id
    package_id := package.id
    session_type := package.session_type
    duration_minutes := duration
    base_price := pyOrPrice slot.override_price package.base_price
    equipment_cost := 0
    total_price := pyOrPrice slot.override_price package.base_price + 0
    status := if package.requires_approval then .pending else .confirmed
    cancelled_at := none
    cancellation_reason := none }

/-! ## Concrete sample data for witnesses -/

/-- A live studio. -/
def demoStudio : Studio := { id := 1, slug := "studio", is_active := true }

/-- An active public package with a fixed 60-minute duration. -/
def demoPackage : Package :=
  { id := 10, studio_id := 1, session_type := .portrait,
    duration_minutes := 60, min_duration_minutes := none,
    max_duration_minutes := none, allow_custom_duration := false,
    base_price := 100, status := .active, is_public := true,
    requires_approval := false }

/-- A general open slot with capacity 1 and no bookings. -/
def demoSlot : TimeSlot :=
  { id := 20, studio_id := 1, package_id := none, date := 5,
    start_time := 540, end_time := 600, max_capacity := 1,
    current_bookings := 0, is_available := true, override_price := none }

/-- A store holding just the sample studio, package and slot. -/
def demoDB : DB :=
  { studios := [demoStudio], packages := [demoPackage],
    slots := [demoSlot], users := [], appointments := [] }

/-- A booking request for the sample package and slot, no custom
duration. -/
def demoReq : BookingRequest :=
  { customer_email := "ann@example.com", customer_first_name := "Ann",
    customer_last_name := "Lee", customer_phone := none,
    package_id := 10, time_slot_id := 20, duration_minutes := none }

/-- The sample slot pinned to the sample package, with no price
override. -/
def pkgSlot : TimeSlot := { demoSlot with package_id := some 10 }

/-- A store whose only slot is the package-specific sample slot. -/
def pkgSlotDB : DB := { demoDB with slots := [pkgSlot] }

/-- The sample booking request with a 90-minute custom duration, which
the fixed-duration sample package rejects. -/
def demoReq90 : BookingRequest := { demoReq with duration_minutes := some 90 }

/-- A booking request naming a package id that does not exist. -/
def demoReqNoPkg : BookingRequest := { demoReq with package_id := 99 }

/-- The appointment created by the sample booking. -/
def demoAppt : Appointment :=
  bookedAppointment demoDB demoReq 100 200 demoPackage demoSlot 60

/-- The sample customer row. -/
def demoUser : User :=
  { id := 30, email := "ann@example.com", first_name := "Ann",
    last_name := "Lee", phone := none }

/-- A no-show appointment of the sample customer on the sample slot. -/
def noShowAppt : Appointment :=
  { id := 200, studio_id := 1, customer_id := 30, time_slot_id := 20,
    package_id := 10, session_type := .portrait, duration_minutes := 60,
    base_price := 100, equipment_cost := 0, total_price := 100,
    status := .noShow, cancelled_at := none, cancellation_reason := none }

/-- A store where the sample customer holds a no-show appointment on a
slot with one recorded booking. -/
def noShowDB : DB :=
  { demoDB with
    users := [demoUser]
    appointments := [noShowAppt]
    slots := [{ demoSlot with current_bookings := 1 }] }

/-- The no-show appointment, already cancelled. -/
def cancelledAppt : Appointment := { noShowAppt with status := .cancelled }

/-- A store where the sample customer's appointment is already
cancelled. -/
def cancelledDB : DB := { noShowDB with appointments := [cancelledAppt] }

/-! ## Helper lemmas on `find?` and `updateFirst` -/

/-- `updateFirst` only rewrites an element satisfying the predicate:
any elementwise property preserved by the update on matching elements
survives. -/
theorem mem_updateFirst {l : List α} {p : α → Bool} {f : α → α} {P : α → Prop}
    (hl : ∀ a ∈ l, P a) (hf : ∀ a, P a → p a = true → P (f a)) :
    ∀ b ∈ updateFirst l p f, P b := by
  induction l with
  | nil => intro b hb; simp [updateFirst] at hb
  | cons a l ih =>
    intro b hb
    cases hpa : p a with
    | true =>
      simp only [updateFirst, hpa, if_true, List.mem_cons] at hb
      rcases hb with rfl | hb
      · exact hf a (hl a (List.mem_cons_self a l)) hpa
      · exact hl b (List.mem_cons_of_mem a hb)
    | false =>
      simp only [updateFirst, hpa, Bool.false_eq_true, if_false, List.mem_cons] at hb
      rcases hb with rfl | hb
      · exact hl b (List.mem_cons_self b l)
      · exact ih (fun x hx => hl x (List.mem_cons_of_mem a hx)) b hb

/-- Decomposition at the first match: when `find?` returns `x`, the list
splits as `l1 ++ x :: l2` with every element of `l1` failing the
predicate, and `updateFirst` rewrites exactly that occurrence. -/
theorem find?_decomp {l : List α} {p : α → Bool} {x : α}
    (h : l.find? p = some x) :
    ∃ l1 l2, l = l1 ++ x :: l2 ∧ (∀ y ∈ l1, p y = false) ∧
      ∀ f, updateFirst l p f = l1 ++ f x :: l2 := by
  induction l with
  | nil => simp [List.find?] at h
  | cons a l ih =>
    cases hpa : p a with
    | true =>
      rw [List.find?_cons_of_pos _ hpa] at h
      obtain rfl : a = x := Option.some_inj.mp h
      exact ⟨[], l, rfl, by simp, fun f => by simp [updateFirst, hpa]⟩
    | false =>
      rw [List.find?_cons_of_neg _ (by simp [hpa])] at h
      obtain ⟨l1, l2, hl, hfail, hupd⟩ := ih h
      refine ⟨a :: l1, l2, by simp [hl], ?_,
        fun f => by simp [updateFirst, hpa, hupd f]⟩
      intro y hy
      rcases List.mem_cons.mp hy with rfl | hy
      · exact hpa
      · exact hfail y hy

/-- `updateFirst` skips a failing block and rewrites the first match. -/
theorem updateFirst_append {l1 l2 : List α} {p : α → Bool} {x : α}
    (hfail : ∀ y ∈ l1, p y = false) (hx : p x = true) (f : α → α) :
    updateFirst (l1 ++ x :: l2) p f = l1 ++ f x :: l2 := by
  induction l1 with
  | nil => simp [updateFirst, hx]
  | cons a l1 ih =>
    have ha : p a = false := hfail a (List.mem_cons_self a l1)
    simp only [List.cons_append, updateFirst, ha, Bool.false_eq_true, if_false,
      List.cons.injEq, true_and]
    exact ih (fun y hy => hfail y (List.mem_cons_of_mem a hy))

/-- `find?` skips a failing block. -/
theorem find?_append_of_fail {l1 l2 : List α} {p : α → Bool}
    (hfail : ∀ y ∈ l1, p y = false) :
    (l1 ++ l2).find? p = l2.find? p := by
  rw [List.find?_append]
  have : l1.find? p = none := List.find?_eq_none.mpr (by
    intro x hx
    simp [hfail x hx])
  simp [this]

/-- In a block preceding an element, no key repeats that element's key,
when the keys of the whole list are distinct. -/
theorem nodup_keys_forall_ne (key : α → β) {l1 l2 : List α} {x : α}
    (h : ((l1 ++ x :: l2).map key).Nodup) :
    ∀ y ∈ l1, key y ≠ key x := by
  induction l1 with
  | nil => intro y hy; simp at hy
  | cons a l1 ih =>
    simp only [List.cons_append, List.map_cons, List.nodup_cons] at h
    intro y hy
    rcases List.mem_cons.mp hy with rfl | hy
    · intro hxy
      exact h.1 (hxy ▸ List.mem_map_of_mem key (by simp))
    · exact ih h.2 y hy

/-- With distinct keys, looking a member up by its key finds exactly it. -/
theorem find?_key_of_mem [DecidableEq β] (key : α → β) {l : List α} {x : α}
    (hnd : (l.map key).Nodup) (hx : x ∈ l) :
    l.find? (fun y => key y == key x) = some x := by
  induction l with
  | nil => simp at hx
  | cons a l ih =>
    simp only [List.map_cons, List.nodup_cons] at hnd
    rcases List.mem_cons.mp hx with rfl | hx
    · exact List.find?_cons_of_pos _ (by simp)
    · have hne : key a ≠ key x := by
        intro he
        exact hnd.1 (he ▸ List.mem_map_of_mem key hx)
      rw [List.find?_cons_of_neg _ (by simpa using hne)]
      exact ih hnd.2 hx

/-! ## Projections of `get_or_create_customer`: it only touches `users` -/

theorem get_or_create_customer_slots (db : DB) (e f l : String)
    (ph : Option String) (uid : Nat) :
    (get_or_create_customer db e f l ph uid).1.slots = db.slots := by
  unfold get_or_create_customer
  cases db.users.find? (fun u => pyLower u.email == pyLower e) <;> rfl

theorem get_or_create_customer_appointments (db : DB) (e f l : String)
    (ph : Option String) (uid : Nat) :
    (get_or_create_customer db e f l ph uid).1.appointments = db.appointments := by
  unfold get_or_create_customer
  cases db.users.find? (fun u => pyLower u.email == pyLower e) <;> rfl

theorem get_or_create_customer_packages (db : DB) (e f l : String)
    (ph : Option String) (uid : Nat) :
    (get_or_create_customer db e f l ph uid).1.packages = db.packages := by
  unfold get_or_create_customer
  cases db.users.find? (fun u => pyLower u.email == pyLower e) <;> rfl

theorem get_or_create_customer_studios (db : DB) (e f l : String)
    (ph : Option String) (uid : Nat) :
    (get_or_create_customer db e f l ph uid).1.studios = db.studios := by
  unfold get_or_create_customer
  cases db.users.find? (fun u => pyLower u.email == pyLower e) <;> rfl

/-! ## Preservation of the capacity invariant (sequential) -/

/-- The slot read of the allocator guarantees spare capacity. -/
theorem slotBookable_lt {tid stid today : Nat} {s : TimeSlot}
    (h : slotBookable tid stid today s = true) :
    s.current_bookings < s.max_capacity := by
  simp only [slotBookable, Bool.and_eq_true, decide_eq_true_eq] at h
  exact h.1.2

/-- One allocation attempt preserves the capacity invariant: the
increment only happens to a slot whose availability read passed. -/
theorem create_preserves_slotInv (db : DB) (today : Nat)
    (req : BookingRequest) (uid aid : Nat) (h : SlotInv db) :
    SlotInv (create_public_booking db today req uid aid).1 := by
  unfold create_public_booking
  split
  · exact h
  · split
    · exact h
    · split
      · exact h
      · dsimp only
        split
        · intro s hs
          dsimp only at hs
          rw [get_or_create_customer_slots] at hs
          exact h s hs
        · intro s hs
          dsimp only at hs
          rw [get_or_create_customer_slots] at hs
          refine mem_updateFirst (P := fun s =>
            0 ≤ s.current_bookings ∧ s.current_bookings ≤ s.max_capacity)
            (fun a ha => h a ha) ?_ s hs
          intro a ha hpa
          have hlt := slotBookable_lt hpa
          obtain ⟨h0, h1⟩ := ha
          exact ⟨by dsimp only; omega, by dsimp only; omega⟩

/-- One cancellation attempt preserves the capacity invariant: the
decrement is floored at zero and only lowers the counter. -/
theorem cancel_preserves_slotInv (db : DB) (now bid : Nat) (email : String)
    (reason : Option String) (h : SlotInv db) :
    SlotInv (cancel_public_booking db now bid email reason).1 := by
  unfold cancel_public_booking
  split
  · exact h
  · split
    · exact h
    · split
      · exact h
      · split
        · exact h
        · split
          · exact h
          · intro s hs
            dsimp only at hs
            refine mem_updateFirst (P := fun s =>
              0 ≤ s.current_bookings ∧ s.current_bookings ≤ s.max_capacity)
              (fun a ha => h a ha) ?_ s hs
            intro a ha _
            obtain ⟨h0, h1⟩ := ha
            refine ⟨le_max_left 0 _, ?_⟩
            dsimp only
            exact max_le (le_trans h0 h1) (by omega)

/-- **C1.** For every slot, the invariant
`0 ≤ current_bookings ≤ max_capacity` holds after any sequence of
allocate (`create_public_booking`) and cancel (`cancel_public_booking`)
operations executed sequentially, starting from a state satisfying the
invariant: allocation only increments when
`current_bookings < max_capacity`, and cancellation never decrements
below zero. -/
theorem C1_capacity_invariant_sequential (db : DB) (ops : List Op)
    (h : SlotInv db) : SlotInv (runOps db ops) := by
  induction ops generalizing db with
  | nil => exact h
  | cons op ops ih =>
    have hstep : SlotInv (runOp db op) := by
      cases op with
      | alloc today req uid aid => exact create_preserves_slotInv db today req uid aid h
      | cancel now bid email reason => exact cancel_preserves_slotInv db now bid email reason h
    simpa [runOps, List.foldl_cons] using ih (runOp db op) hstep

/-- Witness for C1: a concrete allocate-then-cancel-then-allocate
sequence from the sample store, whose initial state satisfies the
invariant, ends in a state satisfying the invariant. -/
theorem C1_capacity_invariant_sequential_witness :
    SlotInv (runOps demoDB
      [.alloc 0 demoReq 100 200,
       .cancel 1 200 "ann@example.com" none,
       .alloc 0 demoReq 101 201]) :=
  C1_capacity_invariant_sequential demoDB _ (by decide)

/-! ## C2: the lost-update race of the separate read-then-increment -/

/-- **C2.** The claim asserts the capacity check and the increment are
one atomic read-modify-write, so that N concurrent attempts against a
`max_capacity = 1` slot yield exactly 1 success and N−1 `Unavailable`
failures.  In the source they are separate steps of one request
(public.py:250-258 reads, public.py:329-333 increments and commits).
Witnessing schedule: two requests against the sample capacity-1 slot,
interleaved read–read–increment–increment.  Both availability reads
pass before either increment, both requests succeed, no request fails
`Unavailable`, and the slot ends overbooked at
`current_bookings = 2 > 1 = max_capacity` — refuting "exactly 1 success
and N−1 `Unavailable` failures". -/
theorem C2_overbooking_race :
    successCount (concRun 0 ⟨demoSlot, [.ready, .ready]⟩ [0, 1, 0, 1]) = 2 ∧
    unavailableCount (concRun 0 ⟨demoSlot, [.ready, .ready]⟩ [0, 1, 0, 1]) = 0 ∧
    (concRun 0 ⟨demoSlot, [.ready, .ready]⟩ [0, 1, 0, 1]).slot.current_bookings = 2 ∧
    (concRun 0 ⟨demoSlot, [.ready, .ready]⟩ [0, 1, 0, 1]).slot.max_capacity = 1 ∧
    ¬ (successCount (concRun 0 ⟨demoSlot, [.ready, .ready]⟩ [0, 1, 0, 1]) = 1 ∧
       unavailableCount (concRun 0 ⟨demoSlot, [.ready, .ready]⟩ [0, 1, 0, 1]) = 1) := by
  decide

/-! ## C3: writes performed by failed booking attempts -/

/-- Every error of the duration validation is `InvalidRequest`. -/
theorem validate_duration_error_eq {requested : Option Int} {package : Package}
    {e : BookingError} (h : validate_duration requested package = .error e) :
    e = .invalidRequest := by
  unfold validate_duration at h
  split at h
  · simp_all
  · dsimp only at h
    split at h
    · simp_all
    · split at h <;> simp_all

/-- Outcome enumeration for the allocator: the three read-only failures
return the store untouched, the duration failure returns the store with
the customer resolution already applied, and otherwise the booking
succeeds. -/
theorem create_public_booking_cases (db : DB) (today : Nat)
    (req : BookingRequest) (uid aid : Nat) :
    create_public_booking db today req uid aid = (db, .error .notFound) ∨
    create_public_booking db today req uid aid = (db, .error .unavailable) ∨
    create_public_booking db today req uid aid = (db, .error .conflict) ∨
    create_public_booking db today req uid aid =
      ((get_or_create_customer db req.customer_email req.customer_first_name
          req.customer_last_name req.customer_phone uid).1, .error .invalidRequest) ∨
    ∃ a, (create_public_booking db today req uid aid).2 = .ok a := by
  unfold create_public_booking
  split
  · exact Or.inl rfl
  · split
    · exact Or.inr (Or.inl rfl)
    · split
      · exact Or.inr (Or.inr (Or.inl rfl))
      · dsimp only
        split
        · rename_i e hv
          have he := validate_duration_error_eq hv
          subst he
          exact Or.inr (Or.inr (Or.inr (Or.inl rfl)))
        · exact Or.inr (Or.inr (Or.inr (Or.inr ⟨_, rfl⟩)))

/-- **C3 (amended).** On a `NotFound`, `Unavailable` or `Conflict`
failure the allocator writes nothing at all; on an `InvalidRequest`
(duration) failure the slot, appointment, package and studio records
are likewise exactly as before — but the customer record may already
have been created, because customer resolution precedes the duration
checks in the source. -/
theorem C3_failed_validation_no_partial_writes (db : DB) (today : Nat)
    (req : BookingRequest) (uid aid : Nat) (e : BookingError)
    (h : (create_public_booking db today req uid aid).2 = .error e) :
    (create_public_booking db today req uid aid).1.slots = db.slots ∧
    (create_public_booking db today req uid aid).1.appointments = db.appointments ∧
    (create_public_booking db today req uid aid).1.packages = db.packages ∧
    (create_public_booking db today req uid aid).1.studios = db.studios ∧
    (e ≠ .invalidRequest → (create_public_booking db today req uid aid).1 = db) := by
  rcases create_public_booking_cases db today req uid aid with hc | hc | hc | hc | ⟨a, hc⟩
  · rw [hc]; exact ⟨rfl, rfl, rfl, rfl, fun _ => rfl⟩
  · rw [hc]; exact ⟨rfl, rfl, rfl, rfl, fun _ => rfl⟩
  · rw [hc]; exact ⟨rfl, rfl, rfl, rfl, fun _ => rfl⟩
  · rw [hc]
    rw [hc] at h
    have he : e = .invalidRequest := by
      simpa using h.symm
    refine ⟨get_or_create_customer_slots .., get_or_create_customer_appointments ..,
      get_or_create_customer_packages .., get_or_create_customer_studios .., ?_⟩
    intro hne
    exact absurd he hne
  · rw [hc] at h
    simp at h

/-- Witness for C3 (amended): at the concrete request naming an absent
package, the failure is `NotFound` and the store is exactly as before. -/
theorem C3_failed_validation_no_partial_writes_witness :
    (create_public_booking demoDB 0 demoReqNoPkg 100 200).1 = demoDB :=
  (C3_failed_validation_no_partial_writes demoDB 0 demoReqNoPkg 100 200
    .notFound (by decide)).2.2.2.2 (by decide)

/-- Counterexample to C3 as stated: a booking attempt that fails
duration validation with `InvalidRequest` (fixed-duration package,
requested 90 minutes, fresh customer email) leaves a newly created
customer record behind — the store is not "exactly as before the
request". -/
theorem C3_user_written_on_invalid_request :
    (create_public_booking demoDB 0 demoReq90 100 200).2 = .error .invalidRequest ∧
    (create_public_booking demoDB 0 demoReq90 100 200).1 ≠ demoDB := by
  decide

/-! ## C4: which statuses cancellation rejects -/

/-- **C4 (amended).** With a matching customer email, cancellation fails
with `InvalidState` exactly when the appointment status is `cancelled`
or `completed` — so a `no_show` appointment can be cancelled — and on
an already-cancelled (or completed) appointment the store, in
particular the slot's `current_bookings`, is left entirely unchanged:
capacity is never double-decremented. -/
theorem C4_cancel_invalid_state (db : DB) (now bid : Nat) (email : String)
    (reason : Option String) (appointment : Appointment) (customer : User)
    (ha : db.appointments.find? (fun a => a.id == bid) = some appointment)
    (hu : db.users.find? (fun u => u.id == appointment.customer_id) = some customer)
    (he : pyLower customer.email = pyLower email) :
    ((cancel_public_booking db now bid email reason).2 = .error .invalidState ↔
      appointment.status = .cancelled ∨ appointment.status = .completed) ∧
    (appointment.status = .cancelled ∨ appointment.status = .completed →
      (cancel_public_booking db now bid email reason).1 = db) := by
  unfold cancel_public_booking
  split
  · rename_i h1
    rw [ha] at h1
    exact absurd h1 (by simp)
  · rename_i a1 h1
    rw [ha] at h1
    injection h1 with h1
    subst h1
    split
    · rename_i h2
      rw [hu] at h2
      exact absurd h2 (by simp)
    · rename_i c1 h2
      rw [hu] at h2
      injection h2 with h2
      subst h2
      split
      · rename_i h3
        rw [he] at h3
        simp at h3
      · split
        · rename_i h4
          have hst : appointment.status = .cancelled := by simpa using h4
          simp [hst]
        · split
          · rename_i h4 h5
            have hst : appointment.status = .completed := by simpa using h5
            have hne : appointment.status ≠ .cancelled := by simpa using h4
            simp [hst]
          · rename_i h4 h5
            have hne1 : appointment.status ≠ .cancelled := by simpa using h4
            have hne2 : appointment.status ≠ .completed := by simpa using h5
            simp [hne1, hne2]

/-- Witness for C4 (amended): cancelling the concrete already-cancelled
appointment fails with `InvalidState`. -/
theorem C4_cancel_invalid_state_witness :
    (cancel_public_booking cancelledDB 7 200 "ann@example.com" none).2 =
      .error .invalidState :=
  (C4_cancel_invalid_state cancelledDB 7 200 "ann@example.com" none
    cancelledAppt demoUser (by decide) (by decide) (by decide)).1.mpr
    (Or.inl (by decide))

/-- Counterexample to C4 as stated: a `no_show` appointment is neither
pending nor confirmed, yet cancelling it (matching email) succeeds
instead of failing with `InvalidState`. -/
theorem C4_noshow_cancel_succeeds :
    noShowAppt.status ≠ .pending ∧ noShowAppt.status ≠ .confirmed ∧
    (cancel_public_booking noShowDB 7 200 "ann@example.com" none).2 = .ok () := by
  decide

/-! ## Reduction of the allocator once the lookups succeed -/

/-- Once the package and slot lookups succeed and the compatibility
check passes, the allocator's outcome is the duration validation's
outcome, with the inserted appointment row on success. -/
theorem create_snd_of_found (db : DB) (today : Nat) (req : BookingRequest)
    (uid aid : Nat) (package : Package) (slot : TimeSlot)
    (hp : db.packages.find? (packageBookable req.package_id) = some package)
    (hs : db.slots.find? (slotBookable req.time_slot_id package.studio_id today) = some slot)
    (hm : slotPackageMismatch slot req.package_id = false) :
    (create_public_booking db today req uid aid).2 =
      (validate_duration req.duration_minutes package).map
        (bookedAppointment db req uid aid package slot) := by
  unfold create_public_booking
  split
  · rename_i h1
    rw [hp] at h1
    cases h1
  · rename_i p1 h1
    rw [hp] at h1
    injection h1 with h1
    subst h1
    split
    · rename_i h2
      rw [hs] at h2
      cases h2
    · rename_i s1 h2
      rw [hs] at h2
      injection h2 with h2
      subst h2
      split
      · rename_i h3
        rw [hm] at h3
        cases h3
      · dsimp only
        cases hv : validate_duration req.duration_minutes package with
        | error e => rfl
        | ok duration => rfl

/-- Once the package and slot lookups succeed but the slot is pinned to
a different package, the allocator fails with `Conflict`. -/
theorem create_conflict_of_mismatch (db : DB) (today : Nat)
    (req : BookingRequest) (uid aid : Nat) (package : Package) (slot : TimeSlot)
    (hp : db.packages.find? (packageBookable req.package_id) = some package)
    (hs : db.slots.find? (slotBookable req.time_slot_id package.studio_id today) = some slot)
    (hm : slotPackageMismatch slot req.package_id = true) :
    create_public_booking db today req uid aid = (db, .error .conflict) := by
  unfold create_public_booking
  split
  · rename_i h1
    rw [hp] at h1
    cases h1
  · rename_i p1 h1
    rw [hp] at h1
    injection h1 with h1
    subst h1
    split
    · rename_i h2
      rw [hs] at h2
      cases h2
    · rename_i s1 h2
      rw [hs] at h2
      injection h2 with h2
      subst h2
      split
      · rfl
      · rename_i h3
        exact absurd hm h3

/-! ## C5: pricing and status of a successful allocation -/

/-- **C5.** Every successful allocation creates an appointment with
`base_price = slot.override_price or package.base_price` (Python `or`),
`equipment_cost = 0`, `total_price = base_price + equipment_cost`, and
status `confirmed` unless `package.requires_approval`, in which case
`pending`. -/
theorem C5_allocation_pricing_and_status (db : DB) (today : Nat)
    (req : BookingRequest) (uid aid : Nat) (package : Package)
    (slot : TimeSlot) (appt : Appointment)
    (hp : db.packages.find? (packageBookable req.package_id) = some package)
    (hs : db.slots.find? (slotBookable req.time_slot_id package.studio_id today) = some slot)
    (hok : (create_public_booking db today req uid aid).2 = .ok appt) :
    appt.base_price = pyOrPrice slot.override_price package.base_price ∧
    appt.equipment_cost = 0 ∧
    appt.total_price = appt.base_price + appt.equipment_cost ∧
    appt.status = (if package.requires_approval then
      AppointmentStatus.pending else AppointmentStatus.confirmed) := by
  cases hm : slotPackageMismatch slot req.package_id with
  | true =>
    rw [create_conflict_of_mismatch db today req uid aid package slot hp hs hm] at hok
    cases hok
  | false =>
    rw [create_snd_of_found db today req uid aid package slot hp hs hm] at hok
    cases hv : validate_duration req.duration_minutes package with
    | error e => rw [hv] at hok; cases hok
    | ok duration =>
      rw [hv] at hok
      injection hok with hok
      subst hok
      exact ⟨rfl, rfl, rfl, rfl⟩

/-- Witness for C5: the sample booking succeeds and its appointment has
the claimed pricing and status. -/
theorem C5_allocation_pricing_and_status_witness :
    demoAppt.base_price = pyOrPrice demoSlot.override_price demoPackage.base_price ∧
    demoAppt.equipment_cost = 0 ∧
    demoAppt.total_price = demoAppt.base_price + demoAppt.equipment_cost ∧
    demoAppt.status = (if demoPackage.requires_approval then
      AppointmentStatus.pending else AppointmentStatus.confirmed) :=
  C5_allocation_pricing_and_status demoDB 0 demoReq 100 200 demoPackage
    demoSlot demoAppt (by decide) (by decide) (by decide)

/-! ## C6: custom-duration validation -/

/-- Duration validation at a nonzero requested duration: reject when
custom durations are off, else check each (truthy) bound. -/
theorem validate_duration_some (package : Package) (d : Int) (hd0 : d ≠ 0) :
    validate_duration (some d) package =
      if !package.allow_custom_duration then .error .invalidRequest
      else if truthyInt package.min_duration_minutes &&
          decide (d < package.min_duration_minutes.getD 0) then
        .error .invalidRequest
      else if truthyInt package.max_duration_minutes &&
          decide (package.max_duration_minutes.getD 0 < d) then
        .error .invalidRequest
      else .ok d := by
  have hbd : (d != 0) = true := by simpa using hd0
  simp only [validate_duration, truthyInt, pyOrInt, hbd, Bool.true_and,
    if_neg hd0]

/-- **C6 (amended).** For every booking request carrying a nonzero
requested duration (the package and slot lookups succeeding and the
slot compatible): the allocator fails with `InvalidRequest` exactly
when custom durations are disallowed, or the duration undercuts a set
(nonzero) `min_duration_minutes`, or exceeds a set (nonzero)
`max_duration_minutes`; otherwise the allocation succeeds. -/
theorem C6_custom_duration_validation (db : DB) (today : Nat)
    (req : BookingRequest) (uid aid : Nat) (package : Package)
    (slot : TimeSlot) (d : Int)
    (hp : db.packages.find? (packageBookable req.package_id) = some package)
    (hs : db.slots.find? (slotBookable req.time_slot_id package.studio_id today) = some slot)
    (hm : slotPackageMismatch slot req.package_id = false)
    (hd : req.duration_minutes = some d) (hd0 : d ≠ 0) :
    ((create_public_booking db today req uid aid).2 = .error .invalidRequest ↔
      (package.allow_custom_duration = false ∨
        (truthyInt package.min_duration_minutes = true ∧
          d < package.min_duration_minutes.getD 0) ∨
        (truthyInt package.max_duration_minutes = true ∧
          package.max_duration_minutes.getD 0 < d))) ∧
    (¬ (package.allow_custom_duration = false ∨
        (truthyInt package.min_duration_minutes = true ∧
          d < package.min_duration_minutes.getD 0) ∨
        (truthyInt package.max_duration_minutes = true ∧
          package.max_duration_minutes.getD 0 < d)) →
      ∃ a, (create_public_booking db today req uid aid).2 = .ok a) := by
  rw [create_snd_of_found db today req uid aid package slot hp hs hm, hd,
    validate_duration_some package d hd0]
  cases hb1 : package.allow_custom_duration <;>
    cases hb2 : truthyInt package.min_duration_minutes <;>
      cases hb3 : truthyInt package.max_duration_minutes <;>
        by_cases hlt : d < package.min_duration_minutes.getD 0 <;>
          by_cases hgt : package.max_duration_minutes.getD 0 < d <;>
            simp [hb1, hb2, hb3, hlt, hgt, Except.map]

/-- Witness for C6 (amended): the sample package (60 minutes, custom
durations disallowed) rejects a requested 90-minute duration with
`InvalidRequest`. -/
theorem C6_custom_duration_validation_witness :
    (create_public_booking demoDB 0 demoReq90 100 200).2 =
      .error .invalidRequest :=
  (C6_custom_duration_validation demoDB 0 demoReq90 100 200 demoPackage
    demoSlot 90 (by decide) (by decide) (by decide) (by decide)
    (by decide)).1.mpr (Or.inl (by decide))

/-- Counterexample to C6 as stated: a requested duration of `0` is
"given" (the schema admits it) on a package disallowing custom
durations, yet the allocator does not fail with `InvalidRequest` — the
`0` is falsy and skips every duration check. -/
theorem C6_zero_duration_not_rejected :
    demoPackage.allow_custom_duration = false ∧
    (create_public_booking demoDB 0
        { demoReq with duration_minutes := some 0 } 100 200).2 ≠
      .error .invalidRequest := by
  decide

/-! ## C10: a requested duration of zero is treated as absent -/

/-- A requested `0` validates exactly like an absent duration. -/
theorem validate_duration_zero (package : Package) :
    validate_duration (some 0) package = validate_duration none package := by
  simp [validate_duration, truthyInt, pyOrInt]

/-- **C10.** A booking request supplying `duration_minutes = 0` (which
the request schema admits, having no lower bound) is treated exactly as
if no duration were requested: the whole run of the allocator is equal
to the run with the duration absent, and the validated duration is the
package's `duration_minutes` — no `InvalidRequest`, even when
`allow_custom_duration = false` or `0` violates `min_duration_minutes`. -/
theorem C10_zero_duration_like_absent (db : DB) (today : Nat)
    (req : BookingRequest) (uid aid : Nat) (package : Package) :
    create_public_booking db today { req with duration_minutes := some 0 } uid aid =
      create_public_booking db today { req with duration_minutes := none } uid aid ∧
    validate_duration (some 0) package = .ok package.duration_minutes := by
  constructor
  · unfold create_public_booking
    dsimp only
    simp only [validate_duration_zero]
  · simp [validate_duration, truthyInt, pyOrInt]

/-! ## Shape of the availability query's successful response -/

/-- A successful availability response is exactly the filtered slot
rows, sorted by `(date, start_time)`, mapped to priced entries. -/
theorem avail_ok_shape (db : DB) (today : Nat) (sid : Nat)
    (package_id : Option Nat) (date_from date_to : Option Nat)
    (out : List AvailableTimeSlot)
    (h : get_available_time_slots db today sid package_id date_from date_to = .ok out) :
    out = ((db.slots.filter (availSlotPred sid package_id (date_from.getD today)
        (date_to.getD (date_from.getD today + 30)))).insertionSort slotOrder).map
      (mkAvailableSlot db package_id) := by
  unfold get_available_time_slots at h
  split at h
  · cases h
  · dsimp only at h
    split at h
    · injection h with h
      exact h.symm
    · cases h

/-- When the studio lookup or the package-filter lookup fails, the
availability query fails with `NotFound`. -/
theorem avail_error_iff (db : DB) (today : Nat) (sid : Nat)
    (package_id : Option Nat) (date_from date_to : Option Nat) :
    get_available_time_slots db today sid package_id date_from date_to =
        .error .notFound ↔
      (db.studios.find? (studioActive sid) = none ∨
        ∃ pid, package_id = some pid ∧
          db.packages.find? (packagePublic pid sid) = none) := by
  unfold get_available_time_slots
  cases hst : db.studios.find? (studioActive sid) with
  | none => simp
  | some st =>
    dsimp only
    cases package_id with
    | none => simp
    | some pid =>
      cases hpk : db.packages.find? (packagePublic pid sid) with
      | none => simp
      | some pkg => simp

/-- Sorting slots transfers to the `(date, start_time)` order on the
priced entries they are mapped to. -/
theorem availLE_mk (db : DB) (package_id : Option Nat) {s t : TimeSlot}
    (h : slotOrder s t) :
    availLE (mkAvailableSlot db package_id s) (mkAvailableSlot db package_id t) := by
  simp only [slotOrder, slotLE, Bool.or_eq_true, Bool.and_eq_true, beq_iff_eq,
    decide_eq_true_eq] at h
  simp only [availLE, mkAvailableSlot]
  omega

/-! ## C8: contents, ordering and failure modes of the availability query -/

/-- **C8.** The availability query fails with `NotFound` exactly when
the studio is inactive or absent, or the supplied `package_id` filter
names no active public package of the studio; a successful response
contains exactly the priced entries of the slots of the studio with
`is_available = true`, spare capacity, and date within
`[date_from, date_to]` (defaults: today and `date_from + 30` days) —
restricted, when a `package_id` filter is given, to slots whose
`package_id` is null or equals it — and is ordered by
`(date ascending, start_time ascending)`. -/
theorem C8_availability_query (db : DB) (today : Nat) (sid : Nat)
    (package_id : Option Nat) (date_from date_to : Option Nat) :
    (get_available_time_slots db today sid package_id date_from date_to =
        .error .notFound ↔
      (db.studios.find? (studioActive sid) = none ∨
        ∃ pid, package_id = some pid ∧
          db.packages.find? (packagePublic pid sid) = none)) ∧
    ∀ out, get_available_time_slots db today sid package_id date_from date_to =
        .ok out →
      (∀ a, a ∈ out ↔ ∃ s, s ∈ db.slots ∧
          availSlotPred sid package_id (date_from.getD today)
            (date_to.getD (date_from.getD today + 30)) s = true ∧
          a = mkAvailableSlot db package_id s) ∧
      out.Pairwise availLE := by
  refine ⟨avail_error_iff db today sid package_id date_from date_to, ?_⟩
  intro out h
  rw [avail_ok_shape db today sid package_id date_from date_to out h]
  constructor
  · intro a
    simp only [List.mem_map, List.mem_insertionSort, List.mem_filter]
    constructor
    · rintro ⟨s, ⟨hs, hpred⟩, rfl⟩
      exact ⟨s, hs, hpred, rfl⟩
    · rintro ⟨s, hs, hpred, rfl⟩
      exact ⟨s, ⟨hs, hpred⟩, rfl⟩
  · exact (List.sorted_insertionSort slotOrder _).map _
      (fun a b => availLE_mk db package_id)

/-- Witness for C8: the sample store's query succeeds, and the theorem
places the sample slot's priced entry in the response. -/
theorem C8_availability_query_witness :
    mkAvailableSlot demoDB none demoSlot ∈ [mkAvailableSlot demoDB none demoSlot] :=
  (((C8_availability_query demoDB 0 1 none none none).2
      [mkAvailableSlot demoDB none demoSlot] (by decide)).1
    (mkAvailableSlot demoDB none demoSlot)).mpr
    ⟨demoSlot, by decide, by decide, rfl⟩

/-! ## C7: the resolved price of returned slots -/

/-- **C7 (amended).** Every entry of a successful availability response
is the priced entry of a stored slot, and its price follows the
amended rule: the slot's `override_price` if set; else, when a
`package_id` filter was supplied, that package's `base_price`; else
zero — the slot's own package is never consulted. -/
theorem C7_resolved_price (db : DB) (today : Nat) (sid : Nat)
    (package_id : Option Nat) (date_from date_to : Option Nat)
    (out : List AvailableTimeSlot)
    (h : get_available_time_slots db today sid package_id date_from date_to = .ok out) :
    ∀ a ∈ out, ∃ s, s ∈ db.slots ∧ a = mkAvailableSlot db package_id s ∧
      a.price = specResolvedPrice db package_id s := by
  rw [avail_ok_shape db today sid package_id date_from date_to out h]
  intro a ha
  simp only [List.mem_map, List.mem_insertionSort, List.mem_filter] at ha
  obtain ⟨s, ⟨hs, _⟩, rfl⟩ := ha
  exact ⟨s, hs, rfl, rfl⟩

/-- Witness for C7 (amended): applied to the sample store's concrete
response entry. -/
theorem C7_resolved_price_witness :
    ∃ s, s ∈ demoDB.slots ∧
      mkAvailableSlot demoDB none demoSlot = mkAvailableSlot demoDB none s ∧
      (mkAvailableSlot demoDB none demoSlot).price = specResolvedPrice demoDB none s :=
  C7_resolved_price demoDB 0 1 none none none
    [mkAvailableSlot demoDB none demoSlot] (by decide)
    (mkAvailableSlot demoDB none demoSlot) (by decide)

/-- Counterexample to C7 as stated: with no `package_id` filter, a
package-specific slot with no override is returned priced at `0`, not
at its own package's `base_price` of `100` — the claimed rule fails
when the filter is absent. -/
theorem C7_price_ignores_slot_package :
    get_available_time_slots pkgSlotDB 0 1 none none none =
      .ok [mkAvailableSlot pkgSlotDB none pkgSlot] ∧
    (mkAvailableSlot pkgSlotDB none pkgSlot).price = 0 ∧
    claimedResolvedPrice pkgSlotDB pkgSlot = 100 ∧
    (0 : Int) ≠ 100 := by
  decide

/-! ## C9: allocate, cancel, allocate again -/

/-- The allocator's full run — post-state and created appointment —
once the lookups succeed and the duration validates. -/
theorem create_eq_of_found (db : DB) (today : Nat) (req : BookingRequest)
    (uid aid : Nat) (package : Package) (slot : TimeSlot) (dur : Int)
    (hp : db.packages.find? (packageBookable req.package_id) = some package)
    (hs : db.slots.find? (slotBookable req.time_slot_id package.studio_id today) = some slot)
    (hm : slotPackageMismatch slot req.package_id = false)
    (hv : validate_duration req.duration_minutes package = .ok dur) :
    create_public_booking db today req uid aid =
      ({ (get_or_create_customer db req.customer_email req.customer_first_name
            req.customer_last_name req.customer_phone uid).1 with
          slots := updateFirst (get_or_create_customer db req.customer_email
              req.customer_first_name req.customer_last_name
              req.customer_phone uid).1.slots
            (slotBookable req.time_slot_id package.studio_id today)
            (fun s => { s with current_bookings := s.current_bookings + 1 })
          appointments := (get_or_create_customer db req.customer_email
              req.customer_first_name req.customer_last_name
              req.customer_phone uid).1.appointments ++
            [bookedAppointment db req uid aid package slot dur] },
        .ok (bookedAppointment db req uid aid package slot dur)) := by
  unfold create_public_booking
  split
  · rename_i h1
    rw [hp] at h1
    cases h1
  · rename_i p1 h1
    rw [hp] at h1
    injection h1 with h1
    subst h1
    split
    · rename_i h2
      rw [hs] at h2
      cases h2
    · rename_i s1 h2
      rw [hs] at h2
      injection h2 with h2
      subst h2
      split
      · rename_i h3
        rw [hm] at h3
        cases h3
      · dsimp only
        rw [hv]
        rfl

/-- The cancellation handler's full run once the appointment and
customer are found, the email matches, and the status permits. -/
theorem cancel_eq_of_found (db : DB) (now bid : Nat) (email : String)
    (reason : Option String) (appt : Appointment) (customer : User)
    (ha : db.appointments.find? (fun a => a.id == bid) = some appt)
    (hu : db.users.find? (fun u => u.id == appt.customer_id) = some customer)
    (he : pyLower customer.email = pyLower email)
    (hc1 : appt.status ≠ .cancelled) (hc2 : appt.status ≠ .completed) :
    cancel_public_booking db now bid email reason =
      ({ db with
          appointments := updateFirst db.appointments (fun a => a.id == bid)
            (fun a => { a with
              status := .cancelled
              cancelled_at := some now
              cancellation_reason := reason })
          slots := updateFirst db.slots (fun s => s.id == appt.time_slot_id)
            (fun s => { s with
              current_bookings := max 0 (s.current_bookings - 1) }) },
        .ok ()) := by
  unfold cancel_public_booking
  split
  · rename_i h1
    rw [ha] at h1
    cases h1
  · rename_i a1 h1
    rw [ha] at h1
    injection h1 with h1
    subst h1
    split
    · rename_i h2
      rw [hu] at h2
      cases h2
    · rename_i c1 h2
      rw [hu] at h2
      injection h2 with h2
      subst h2
      split
      · rename_i h3
        rw [he] at h3
        simp at h3
      · split
        · rename_i h4
          exact absurd (by simpa using h4) hc1
        · split
          · rename_i h4 h5
            exact absurd (by simpa using h5) hc2
          · rfl

/-- The customer row the resolver returns carries the request's email
(case-insensitively), and the post-state finds it again both by id and
by email — resolution is idempotent on the email. -/
theorem get_or_create_customer_spec (db : DB) (e f l : String)
    (ph : Option String) (uid : Nat)
    (hndu : (db.users.map (fun u => u.id)).Nodup)
    (hfu : ∀ u ∈ db.users, u.id ≠ uid) :
    pyLower (get_or_create_customer db e f l ph uid).2.email = pyLower e ∧
    (get_or_create_customer db e f l ph uid).1.users.find?
        (fun y => y.id == (get_or_create_customer db e f l ph uid).2.id) =
      some (get_or_create_customer db e f l ph uid).2 ∧
    (get_or_create_customer db e f l ph uid).1.users.find?
        (fun u => pyLower u.email == pyLower e) =
      some (get_or_create_customer db e f l ph uid).2 := by
  cases hgc : db.users.find? (fun u => pyLower u.email == pyLower e) with
  | some u =>
    have hb : (pyLower u.email == pyLower e) = true := by
      have := List.find?_some hgc
      simpa using this
    have hrw : get_or_create_customer db e f l ph uid = (db, u) := by
      unfold get_or_create_customer
      rw [hgc]
    rw [hrw]
    dsimp only
    refine ⟨eq_of_beq hb, ?_, hgc⟩
    exact find?_key_of_mem (fun y : User => y.id) hndu
      (List.mem_of_find?_eq_some hgc)
  | none =>
    have hrw : get_or_create_customer db e f l ph uid =
        ({ db with users := db.users ++
            [{ id := uid, email := e, first_name := f, last_name := l, phone := ph }] },
          { id := uid, email := e, first_name := f, last_name := l, phone := ph }) := by
      unfold get_or_create_customer
      rw [hgc]
    rw [hrw]
    dsimp only
    refine ⟨rfl, ?_, ?_⟩
    · have hfail : ∀ y ∈ db.users, (y.id == uid) = false := fun y hy =>
        beq_eq_false_iff_ne.mpr (hfu y hy)
      rw [find?_append_of_fail hfail]
      exact List.find?_cons_of_pos _ (by simp)
    · have hfail : ∀ y ∈ db.users, (pyLower y.email == pyLower e) = false := by
        intro y hy
        have := List.find?_eq_none.mp hgc y hy
        simpa using this
      rw [find?_append_of_fail hfail]
      exact List.find?_cons_of_pos _ (by simp)

/-- The status a fresh allocation writes is never `cancelled`. -/
theorem bookedAppointment_status_ne_cancelled (db : DB) (req : BookingRequest)
    (uid aid : Nat) (package : Package) (slot : TimeSlot) (dur : Int) :
    (bookedAppointment db req uid aid package slot dur).status ≠ .cancelled := by
  cases hra : package.requires_approval <;> simp [bookedAppointment, hra]

/-- The status a fresh allocation writes is never `completed`. -/
theorem bookedAppointment_status_ne_completed (db : DB) (req : BookingRequest)
    (uid aid : Nat) (package : Package) (slot : TimeSlot) (dur : Int) :
    (bookedAppointment db req uid aid package slot dur).status ≠ .completed := by
  cases hra : package.requires_approval <;> simp [bookedAppointment, hra]

/-- **C9.** Round-trip: allocating, then cancelling by the same
customer, then allocating again on the same slot â given the slot is
available and its date not past (the lookup hypotheses), the duration
validates, the row ids are well-formed (distinct slot ids, distinct
user ids, fresh generated ids) and the counters start non-negative â
succeeds at every step, restores `slots` (in particular the slot's
`current_bookings`) to its pre-allocation value after the cancel, and
lets the second allocation succeed. -/
theorem C9_roundtrip (db : DB) (today now : Nat) (req : BookingRequest)
    (uid aid uid2 aid2 : Nat) (reason : Option String)
    (package : Package) (slot : TimeSlot) (dur : Int)
    (hp : db.packages.find? (packageBookable req.package_id) = some package)
    (hs : db.slots.find? (slotBookable req.time_slot_id package.studio_id today) = some slot)
    (hm : slotPackageMismatch slot req.package_id = false)
    (hv : validate_duration req.duration_minutes package = .ok dur)
    (hnds : (db.slots.map (fun s => s.id)).Nodup)
    (hndu : (db.users.map (fun u => u.id)).Nodup)
    (hfu : ∀ u ∈ db.users, u.id ≠ uid)
    (hfa : ∀ a ∈ db.appointments, a.id ≠ aid)
    (hnn : ∀ s ∈ db.slots, 0 ≤ s.current_bookings) :
    ∃ appt db1, create_public_booking db today req uid aid = (db1, .ok appt) ∧
    ∃ db2, cancel_public_booking db1 now appt.id req.customer_email reason =
        (db2, .ok ()) ∧
      db2.slots = db.slots ∧
      ∃ appt2 db3, create_public_booking db2 today req uid2 aid2 = (db3, .ok appt2) := by
  obtain ⟨hemail, hfindid, -⟩ := get_or_create_customer_spec db
    req.customer_email req.customer_first_name req.customer_last_name
    req.customer_phone uid hndu hfu
  have h1 := create_eq_of_found db today req uid aid package slot dur hp hs hm hv
  refine ⟨bookedAppointment db req uid aid package slot dur, _, h1, ?_⟩
  have hgslots : (get_or_create_customer db req.customer_email
      req.customer_first_name req.customer_last_name
      req.customer_phone uid).1.slots = db.slots :=
    get_or_create_customer_slots ..
  have hgappts : (get_or_create_customer db req.customer_email
      req.customer_first_name req.customer_last_name
      req.customer_phone uid).1.appointments = db.appointments :=
    get_or_create_customer_appointments ..
  have hgpkgs : (get_or_create_customer db req.customer_email
      req.customer_first_name req.customer_last_name
      req.customer_phone uid).1.packages = db.packages :=
    get_or_create_customer_packages ..
  -- the appointment lookup of the cancellation finds the fresh row
  have hfa' : ∀ a ∈ db.appointments,
      (a.id == (bookedAppointment db req uid aid package slot dur).id) = false := by
    intro a haa
    exact beq_eq_false_iff_ne.mpr (hfa a haa)
  have hafind : ((get_or_create_customer db req.customer_email
        req.customer_first_name req.customer_last_name
        req.customer_phone uid).1.appointments ++
        [bookedAppointment db req uid aid package slot dur]).find?
      (fun a => a.id == (bookedAppointment db req uid aid package slot dur).id) =
      some (bookedAppointment db req uid aid package slot dur) := by
    rw [hgappts, find?_append_of_fail hfa']
    exact List.find?_cons_of_pos _ (by simp)
  -- the slot decomposition of the store at the found slot
  obtain ⟨l1, l2, hsplit, -, hupd⟩ := find?_decomp hs
  have hnds' : ((l1 ++ slot :: l2).map (fun s => s.id)).Nodup := by
    rw [← hsplit]
    exact hnds
  have hne1 : ∀ y ∈ l1, y.id ≠ slot.id :=
    nodup_keys_forall_ne (fun s : TimeSlot => s.id) hnds'
  have h0 : (0 : Int) ≤ slot.current_bookings :=
    hnn slot (List.mem_of_find?_eq_some hs)
  -- the decrement of the cancellation restores the slot list
  have hrestore : updateFirst (updateFirst (get_or_create_customer db
        req.customer_email req.customer_first_name req.customer_last_name
        req.customer_phone uid).1.slots
      (slotBookable req.time_slot_id package.studio_id today)
      (fun s => { s with current_bookings := s.current_bookings + 1 }))
      (fun s => s.id == (bookedAppointment db req uid aid package slot dur).time_slot_id)
      (fun s => { s with current_bookings := max 0 (s.current_bookings - 1) }) =
      db.slots := by
    rw [hgslots, hupd]
    have hpre : ∀ y ∈ l1,
        (y.id == (bookedAppointment db req uid aid package slot dur).time_slot_id) = false := by
      intro y hy
      simpa [bookedAppointment] using beq_eq_false_iff_ne.mpr (hne1 y hy)
    have hmid : ((({ slot with current_bookings := slot.current_bookings + 1 } :
        TimeSlot)).id ==
          (bookedAppointment db req uid aid package slot dur).time_slot_id) = true := by
      simp [bookedAppointment]
    rw [updateFirst_append hpre hmid]
    dsimp only
    have hmidslot : ({ slot with
        current_bookings := max 0 (slot.current_bookings + 1 - 1) } : TimeSlot) = slot := by
      rw [show max 0 (slot.current_bookings + 1 - 1) = slot.current_bookings from by omega]
    rw [hmidslot, ← hsplit]
  -- run the cancellation
  have h2 := cancel_eq_of_found
    ({ (get_or_create_customer db req.customer_email req.customer_first_name
          req.customer_last_name req.customer_phone uid).1 with
        slots := updateFirst (get_or_create_customer db req.customer_email
            req.customer_first_name req.customer_last_name
            req.customer_phone uid).1.slots
          (slotBookable req.time_slot_id package.studio_id today)
          (fun s => { s with current_bookings := s.current_bookings + 1 })
        appointments := (get_or_create_customer db req.customer_email
            req.customer_first_name req.customer_last_name
            req.customer_phone uid).1.appointments ++
          [bookedAppointment db req uid aid package slot dur] })
    now (bookedAppointment db req uid aid package slot dur).id
    req.customer_email reason
    (bookedAppointment db req uid aid package slot dur)
    (get_or_create_customer db req.customer_email req.customer_first_name
      req.customer_last_name req.customer_phone uid).2
    hafind hfindid hemail
    (bookedAppointment_status_ne_cancelled db req uid aid package slot dur)
    (bookedAppointment_status_ne_completed db req uid aid package slot dur)
  refine ⟨_, h2, ?_, ?_⟩
  · dsimp only
    exact hrestore
  · refine ⟨_, _, create_eq_of_found _ today req uid2 aid2 package slot dur ?_ ?_ hm hv⟩
    · dsimp only
      rw [hgpkgs]
      exact hp
    · dsimp only
      rw [hrestore]
      exact hs

/-- Witness for C9: the concrete allocate–cancel–allocate round trip on
the sample store succeeds and restores the slot list. -/
theorem C9_roundtrip_witness :
    ∃ appt db1, create_public_booking demoDB 0 demoReq 100 200 = (db1, .ok appt) ∧
    ∃ db2, cancel_public_booking db1 1 appt.id demoReq.customer_email none =
        (db2, .ok ()) ∧
      db2.slots = demoDB.slots ∧
      ∃ appt2 db3, create_public_booking db2 0 demoReq 101 201 = (db3, .ok appt2) :=
  C9_roundtrip demoDB 0 1 demoReq 100 200 101 201 none demoPackage demoSlot 60
    (by decide) (by decide) (by decide) (by decide) (by decide) (by decide)
    (by decide) (by decide) (by decide)

end SpsArsys
